import Mathlib

/-!
Verification of the per-frame NSFW detection-to-redaction pipeline.

The definitions below are a shallow embedding of the frame-processing code:

* `extractBlurRegions`, `processBody`, `processFrame`, `storePhase`,
  `applyUltraFastBlur`, `ultraBlurROI`, `cacheLookup`, `cleanCache` model
  `UltraFastNSFWProcessor` in `flask_api.py`;
* `processSingleFrameSelect` models the selection loop of
  `VideoStreamProcessor.process_single_frame` in `realtime_video_processor.py`,
  including the `ImportError` its name-mangled label import raises, and
  `selectDetection` records the (unreachable) filter expression it contains;
* `create_smooth_mask`, `apply_optimized_blur`, `apply_multi_stage_blur` model
  the compositor in `test_pytorch_model.py`.

External OpenCV primitives (`cv2.resize`, `cv2.GaussianBlur`, `cv2.filter2D`)
are opaque to the repository and are modelled as parameters of an `Env`
record; all arithmetic surrounding them is translated from the source.
Python floats are modelled as exact rationals and `int(...)` as truncation
toward zero.
-/

/-- A pixel buffer: `height × width` grid of 8-bit samples (one channel shown;
channels behave identically under every operation modelled here). -/
structure Frame where
  height : ℕ
  width : ℕ
  pix : ℕ → ℕ → ℕ

/-- One raw detection as produced by the detector: float box `xyxy`,
confidence, integer class index (`box.xyxy[0]`, `box.conf[0]`, `box.cls[0]`). -/
structure RawDet where
  x1 : ℚ
  y1 : ℚ
  x2 : ℚ
  y2 : ℚ
  conf : ℚ
  cls : ℕ
deriving DecidableEq

/-- A blur region tuple `(x1, y1, x2, y2, class_name, conf)`. -/
structure Region where
  x1 : ℤ
  y1 : ℤ
  x2 : ℤ
  y2 : ℤ
  className : String
  conf : ℚ
deriving DecidableEq

/-- A detection dict `{class, confidence, bbox}` as returned by
`process_frame` (flask_api.py lines 131-138). -/
structure Detection where
  className : String
  confidence : ℚ
  bbox : ℤ × ℤ × ℤ × ℤ
deriving DecidableEq

/-- Python's `int(...)` on a float value: truncation toward zero. -/
def pyInt (q : ℚ) : ℤ :=
  Int.tdiv q.num q.den

/-- For a non-negative value, Python's truncating `int(...)` is the floor. -/
theorem pyInt_eq_floor (q : ℚ) (hq : 0 ≤ q) : pyInt q = ⌊q⌋ := by
  rw [pyInt, Rat.floor_def,
    Int.tdiv_eq_ediv (Rat.num_nonneg.mpr hq) (Int.natCast_nonneg _)]

/-- The 18-entry label list `__labels` of `test_pytorch_model.py`. -/
def modelLabels : List String :=
  ["FEMALE_GENITALIA_COVERED", "FACE_FEMALE", "BUTTOCKS_EXPOSED",
   "FEMALE_BREAST_EXPOSED", "FEMALE_GENITALIA_EXPOSED", "MALE_BREAST_EXPOSED",
   "ANUS_EXPOSED", "FEET_EXPOSED", "BELLY_COVERED", "FEET_COVERED",
   "ARMPITS_COVERED", "ARMPITS_EXPOSED", "FACE_MALE", "BELLY_EXPOSED",
   "MALE_GENITALIA_EXPOSED", "ANUS_COVERED", "FEMALE_BREAST_COVERED",
   "BUTTOCKS_COVERED"]

/-- The redact-class set `nsfw_classes` / `nudity_classes` (same five names at
every call site). -/
def nsfwClasses : List String :=
  ["BUTTOCKS_EXPOSED", "FEMALE_BREAST_EXPOSED", "FEMALE_GENITALIA_EXPOSED",
   "MALE_GENITALIA_EXPOSED", "ANUS_EXPOSED"]

/-- Coordinate scaling back to original-frame space
(flask_api.py lines 202-204 and realtime_video_processor.py lines 174-176):
when the frame was resized, multiply by `scale = 1.0 / resize_factor` and
truncate with `int(...)`. -/
def scaleCoord (resize_factor : ℚ) (c : ℤ) : ℤ :=
  if resize_factor ≠ 1 then pyInt ((c : ℚ) * (1 / resize_factor)) else c

/-- Bounds clamp of `_extract_blur_regions` (flask_api.py lines 206-211),
identical to `apply_fast_blur` (realtime_video_processor.py lines 199-204). -/
def clampBox (width height : ℕ) (x1 y1 x2 y2 : ℤ) : ℤ × ℤ × ℤ × ℤ :=
  let x1c := max 0 (min x1 (width : ℤ))
  let y1c := max 0 (min y1 (height : ℤ))
  let x2c := max x1c (min x2 (width : ℤ))
  let y2c := max y1c (min y2 (height : ℤ))
  (x1c, y1c, x2c, y2c)

/-- The coordinate rectification of `_extract_blur_regions`: scale each
coordinate back to original space, then clamp to the frame bounds. -/
def rectifyCoords (resize_factor : ℚ) (width height : ℕ) (x1 y1 x2 y2 : ℤ) :
    ℤ × ℤ × ℤ × ℤ :=
  clampBox width height (scaleCoord resize_factor x1) (scaleCoord resize_factor y1)
    (scaleCoord resize_factor x2) (scaleCoord resize_factor y2)

/-- Rounding to the nearest integer (half rounds up, matching Mathlib's
`round`), written with `Rat.floor` so it evaluates. -/
def roundNearest (q : ℚ) : ℤ :=
  (q + 1/2).floor

/-- The function `roundNearest` agrees with Mathlib's `round`. -/
theorem roundNearest_eq_round (q : ℚ) : roundNearest q = round q := by
  rw [roundNearest, round_eq, Rat.floor_def', Rat.floor_def]

/-- Modelled from the spec: the Coordinate Rectifier as §4.2 words it
("divide each coordinate by `inference_scale`, round to nearest integer
pixel, then clamp `x1,y1` to `[0,width)`/`[0,height)` and `x2,y2` to
`[x1,width]`/`[y1,height]`"), for comparison with the source's
`rectifyCoords`. -/
def rectifyCoordsNearest (inference_scale : ℚ) (width height : ℕ)
    (x1 y1 x2 y2 : ℤ) : ℤ × ℤ × ℤ × ℤ :=
  let rx1 := roundNearest ((x1 : ℚ) / inference_scale)
  let ry1 := roundNearest ((y1 : ℚ) / inference_scale)
  let rx2 := roundNearest ((x2 : ℚ) / inference_scale)
  let ry2 := roundNearest ((y2 : ℚ) / inference_scale)
  let x1c := max 0 (min rx1 ((width : ℤ) - 1))
  let y1c := max 0 (min ry1 ((height : ℤ) - 1))
  let x2c := max x1c (min rx2 (width : ℤ))
  let y2c := max y1c (min ry2 (height : ℤ))
  (x1c, y1c, x2c, y2c)

/-- The method `_extract_blur_regions` (flask_api.py lines 169-215): keep detections whose
class name is in the redact set, truncate the float box with `map(int, ...)`,
scale back to original coordinates and clamp. (Confidence filtering on this
path is delegated to the detector call itself, line 123.) -/
def extractBlurRegions (labels nsfw : List String) (height width : ℕ)
    (resize_factor : ℚ) (dets : List RawDet) : List Region :=
  dets.filterMap fun d =>
    if h : d.cls < labels.length then
      let class_name := labels.get ⟨d.cls, h⟩
      if class_name ∈ nsfw then
        let r := rectifyCoords resize_factor width height
          (pyInt d.x1) (pyInt d.y1) (pyInt d.x2) (pyInt d.y2)
        some ⟨r.1, r.2.1, r.2.2.1, r.2.2.2, class_name, d.conf⟩
      else none
    else none

/-- The exception raised by realtime_video_processor.py line 166: the
statement `from test_pytorch_model import __labels` sits inside the class
body of `VideoStreamProcessor`, so Python name-mangles the imported
identifier to `_VideoStreamProcessor__labels`, a name `test_pytorch_model`
does not define — executing the import raises `ImportError`. -/
inductive PyImportError where
  | importError : PyImportError
deriving DecidableEq

/-- The region-selection filter of `process_single_frame` as it is written
at realtime_video_processor.py lines 167-178: a detection would qualify when
its class name is in the redact set and its confidence is strictly greater
than the threshold, its box truncated to ints and scaled back (no clamp
here — clamping happens later in `apply_fast_blur`).  This expression is
unreachable in the real program: the mangled import modelled by
`processSingleFrameSelect` raises before it executes.  It is kept to record
what the filter tests. -/
def selectDetection (labels classes : List String)
    (confidence_threshold resize_factor : ℚ) (d : RawDet) : Option Region :=
  if h : d.cls < labels.length then
    let class_name := labels.get ⟨d.cls, h⟩
    if class_name ∈ classes ∧ confidence_threshold < d.conf then
      some ⟨scaleCoord resize_factor (pyInt d.x1), scaleCoord resize_factor (pyInt d.y1),
            scaleCoord resize_factor (pyInt d.x2), scaleCoord resize_factor (pyInt d.y2),
            class_name, d.conf⟩
    else none
  else none

/-- The selection loop of `process_single_frame`
(realtime_video_processor.py lines 155-178) as the program actually runs:
each iteration of `for box in boxes` extracts the box data and then executes
`from test_pytorch_model import __labels` (line 166), which raises
`ImportError` because of the name mangling — before the
`class_name in self.nudity_classes and conf > confidence_threshold` filter
is ever evaluated.  `process_single_frame` has no try/except, so the
exception propagates: a non-empty detector result raises at its first box,
and only an empty result completes (selecting nothing). -/
def processSingleFrameSelect (classes : List String)
    (confidence_threshold resize_factor : ℚ) (dets : List RawDet) :
    Except PyImportError (List Region) :=
  match dets with
  | [] => Except.ok []
  | _ :: _ => Except.error PyImportError.importError

/-- C2: for every detection and every positive inference scale, the rectified
box satisfies `0 ≤ x1 ≤ x2 ≤ width` and `0 ≤ y1 ≤ y2 ≤ height`. -/
theorem extractBlurRegions_box_in_bounds (labels nsfw : List String)
    (height width : ℕ) (resize_factor : ℚ) (dets : List RawDet)
    (hscale : 0 < resize_factor) :
    ∀ r ∈ extractBlurRegions labels nsfw height width resize_factor dets,
      0 ≤ r.x1 ∧ r.x1 ≤ r.x2 ∧ r.x2 ≤ (width : ℤ) ∧
      0 ≤ r.y1 ∧ r.y1 ≤ r.y2 ∧ r.y2 ≤ (height : ℤ) := by
  intro r hr
  rw [extractBlurRegions, List.mem_filterMap] at hr
  obtain ⟨d, -, hd⟩ := hr
  by_cases h : d.cls < labels.length
  · simp only [h, dite_true, Option.ite_none_right_eq_some, Option.some.injEq] at hd
    obtain ⟨-, hd⟩ := hd
    subst hd
    simp only [rectifyCoords, clampBox]
    refine ⟨?_, ?_, ?_, ?_, ?_, ?_⟩ <;> omega
  · simp [h] at hd

/-- Witness for `extractBlurRegions_box_in_bounds` at a concrete input: a
detection box `(10,20,500,700)` on a 640×480 frame without pre-inference
resize rectifies to `(10,20,500,480)`, which satisfies the bounds. -/
theorem extractBlurRegions_box_in_bounds_witness :
    (0 : ℚ) < 1 ∧
    ((0 : ℤ) ≤ 10 ∧ (10 : ℤ) ≤ 500 ∧ (500 : ℤ) ≤ 640 ∧
     (0 : ℤ) ≤ 20 ∧ (20 : ℤ) ≤ 480 ∧ (480 : ℤ) ≤ 480) := by
  have hlist : extractBlurRegions modelLabels nsfwClasses 480 640 1
      [⟨10, 20, 500, 700, 9/10, 2⟩] =
      [⟨10, 20, 500, 480, "BUTTOCKS_EXPOSED", 9/10⟩] := by
    have hmem : "BUTTOCKS_EXPOSED" ∈ nsfwClasses := by decide
    norm_num [extractBlurRegions, rectifyCoords, clampBox, scaleCoord,
      modelLabels, hmem, pyInt_eq_floor, List.filterMap_cons, List.filterMap_nil]
  refine ⟨by norm_num, ?_⟩
  exact extractBlurRegions_box_in_bounds modelLabels nsfwClasses 480 640 1
    [⟨10, 20, 500, 700, 9/10, 2⟩] (by norm_num)
    ⟨10, 20, 500, 480, "BUTTOCKS_EXPOSED", 9/10⟩
    (by rw [hlist]; exact List.mem_singleton_self _)

/-- C3 (code_bug evidence): the selection loop of `process_single_frame`
raises on every non-empty detector result — the name-mangled import at
realtime_video_processor.py line 166 fires inside the first loop iteration,
before the written class/confidence filter can run — and only an empty
result completes, selecting nothing.  In particular, the claim's
matching-class, above-threshold detection (class index 2 =
`BUTTOCKS_EXPOSED`, confidence 0.7 against threshold 0.4), which the filter
as written would select, instead makes the whole call raise `ImportError`:
no detection is ever selected. -/
theorem process_single_frame_select_raises :
    (∀ (classes : List String) (confidence_threshold resize_factor : ℚ)
      (d : RawDet) (dets : List RawDet),
      processSingleFrameSelect classes confidence_threshold resize_factor (d :: dets) =
        Except.error PyImportError.importError) ∧
    (∀ (classes : List String) (confidence_threshold resize_factor : ℚ),
      processSingleFrameSelect classes confidence_threshold resize_factor [] =
        Except.ok []) ∧
    (selectDetection modelLabels nsfwClasses (2/5) 1 ⟨1, 2, 3, 4, 7/10, 2⟩).isSome ∧
    processSingleFrameSelect nsfwClasses (2/5) 1 [⟨1, 2, 3, 4, 7/10, 2⟩] =
      Except.error PyImportError.importError := by
  refine ⟨fun _ _ _ _ _ => rfl, fun _ _ _ => rfl, ?_, rfl⟩
  have hmem : "BUTTOCKS_EXPOSED" ∈ nsfwClasses := by decide
  norm_num [selectDetection, modelLabels, hmem]

/-- C7 (amended): the scaling step divides each coordinate by the inference
scale and truncates toward zero (equivalently, floors it for non-negative
coordinates) — it does not round to the nearest pixel — and the resize
round-trip example `(100,100,200,200)` at scale `0.5` on a `1000×1000` frame
rectifies to `(200,200,400,400)`. -/
theorem rectify_truncates_and_roundtrip :
    (∀ resize_factor : ℚ, 0 < resize_factor → resize_factor ≠ 1 →
      ∀ c : ℤ, 0 ≤ c →
        scaleCoord resize_factor c = ⌊(c : ℚ) / resize_factor⌋) ∧
    rectifyCoords (1/2) 1000 1000 100 100 200 200 = (200, 200, 400, 400) := by
  constructor
  · intro rf hrf hne c hc
    rw [scaleCoord, if_pos hne, pyInt_eq_floor _ (by positivity), mul_one_div]
  · norm_num [rectifyCoords, clampBox, scaleCoord, pyInt_eq_floor]

/-- Witness for `rectify_truncates_and_roundtrip`: concrete instance of the
truncation characterization at `resize_factor = 3/10`, `c = 2`. -/
theorem rectify_truncates_and_roundtrip_witness :
    ((0 : ℚ) < 3/10 ∧ (3/10 : ℚ) ≠ 1 ∧ (0 : ℤ) ≤ 2) ∧
    scaleCoord (3/10) 2 = ⌊(2 : ℚ) / (3/10)⌋ :=
  ⟨⟨by norm_num, by norm_num, by norm_num⟩,
   rectify_truncates_and_roundtrip.1 (3/10) (by norm_num) (by norm_num) 2 (by norm_num)⟩

/-- C7 counterexample: the code truncates rather than rounding to nearest.
At `resize_factor = 0.3`, box `(2,2,8,8)` on a `100×100` frame, the source's
rectification gives `(6,6,26,26)` while the spec's round-to-nearest
rectification gives `(7,7,27,27)`. -/
theorem rectify_not_round_to_nearest :
    rectifyCoords (3/10) 100 100 2 2 8 8 = (6, 6, 26, 26) ∧
    rectifyCoordsNearest (3/10) 100 100 2 2 8 8 = (7, 7, 27, 27) ∧
    rectifyCoords (3/10) 100 100 2 2 8 8 ≠
      rectifyCoordsNearest (3/10) 100 100 2 2 8 8 := by
  have h1 : rectifyCoords (3/10) 100 100 2 2 8 8 = (6, 6, 26, 26) := by
    norm_num [rectifyCoords, clampBox, scaleCoord, pyInt_eq_floor]
  have h2 : rectifyCoordsNearest (3/10) 100 100 2 2 8 8 = (7, 7, 27, 27) := by
    norm_num [rectifyCoordsNearest, roundNearest_eq_round, round_eq]
  refine ⟨h1, h2, by rw [h1, h2]; decide⟩

/-! ### External image primitives and failure injection

The pipeline calls OpenCV (`cv2.resize`, `cv2.GaussianBlur`, `cv2.filter2D`)
and a YOLO model; those live outside this repository, so they are parameters
of an `Env` record.  `failAt` injects "an exception is raised at this point
of `process_frame`" so that the per-frame error containment can be stated for
every exception site. -/

/-- The points of `process_frame` at which the source can raise: the resize
call, model inference, region extraction, the blur loop (after `k` regions
have already been written back into the frame), and the cache store. -/
inductive FailPoint where
  | resizeStep : FailPoint
  | inferStep : FailPoint
  | extractStep : FailPoint
  | blurStep (k : ℕ) : FailPoint
  | storeStep : FailPoint
deriving DecidableEq

/-- External primitives plus the detector and failure injection. -/
structure Env where
  resizeLinear : Frame → ℕ → ℕ → Frame
  resizeNearest : Frame → ℕ → ℕ → Frame
  gaussianBlur : Frame → ℕ → ℚ → Frame
  motionBlur15 : Frame → Frame
  detect : Frame → ℚ → ℕ → List RawDet
  labels : List String
  failAt : Option FailPoint

/-! ### The smooth-edge compositor of `test_pytorch_model.py` -/

/-- The border intensity written at loop iteration `i`:
`int(255 * (i+1)/padding)` in `create_smooth_mask` (lines 249-251).  Exact
rational arithmetic truncated; for the `padding = 5` used by the source the
values (51, 102, 153, 204, 255) agree with the float computation. -/
def smoothIntensity (padding i : ℕ) : ℕ :=
  255 * (i + 1) / padding

/-- One iteration of the `create_smooth_mask` loop (lines 249-264): write the
intensity into top row `i` and bottom row `height-1-i`, then take the
pointwise minimum with it on left column `i` and right column `width-1-i`. -/
def smoothStep (width height padding i : ℕ) (m : ℕ → ℕ → ℕ) : ℕ → ℕ → ℕ :=
  fun y x =>
    let v := smoothIntensity padding i
    let a1 := if i < height ∧ (y = i ∨ y = height - 1 - i) then v else m y x
    let a2 := if i < width ∧ x = i then min a1 v else a1
    if i < width ∧ x = width - 1 - i then min a2 v else a2

/-- The mask after the first `k` iterations of the loop, starting from
`np.ones((height, width)) * 255`. -/
def smoothMaskAux (width height padding : ℕ) : ℕ → (ℕ → ℕ → ℕ)
  | 0 => fun _ _ => 255
  | k + 1 => smoothStep width height padding k (smoothMaskAux width height padding k)

/-- The function `create_smooth_mask(width, height, padding)` of `test_pytorch_model.py`
(lines 243-266), as a function from row and column to the mask value. -/
def create_smooth_mask (width height padding : ℕ) : ℕ → ℕ → ℕ :=
  smoothMaskAux width height padding padding

/-- Membership of pixel `(y, x)` in the padded box of region `r`
(`apply_optimized_blur` lines 220-224: `padding = 5`, clamped to the frame). -/
def inPaddedBox (height width : ℕ) (r : Region) (y x : ℕ) : Prop :=
  max 0 (r.y1 - 5) ≤ (y : ℤ) ∧ (y : ℤ) < min (height : ℤ) (r.y2 + 5) ∧
  max 0 (r.x1 - 5) ≤ (x : ℤ) ∧ (x : ℤ) < min (width : ℤ) (r.x2 + 5)

instance (height width : ℕ) (r : Region) (y x : ℕ) :
    Decidable (inPaddedBox height width r y x) := by
  unfold inPaddedBox
  infer_instance

/-- One region's contribution to the combined mask
(`apply_optimized_blur` lines 218-231): inside the padded box the mask becomes
`np.maximum` of its previous value and the region's smooth mask. -/
def maskAddRegion (height width : ℕ) (m : ℕ → ℕ → ℕ) (r : Region) : ℕ → ℕ → ℕ :=
  fun y x =>
    if inPaddedBox height width r y x then
      max (m y x)
        (create_smooth_mask ((min (width : ℤ) (r.x2 + 5) - max 0 (r.x1 - 5)).toNat)
          ((min (height : ℤ) (r.y2 + 5) - max 0 (r.y1 - 5)).toNat) 5
          ((y : ℤ) - max 0 (r.y1 - 5)).toNat ((x : ℤ) - max 0 (r.x1 - 5)).toNat)
    else m y x

/-- The combined mask over all regions, starting from
`np.zeros(img.shape[:2])` (line 215). -/
def combinedMask (height width : ℕ) (rs : List Region) : ℕ → ℕ → ℕ :=
  rs.foldl (maskAddRegion height width) fun _ _ => 0

/-- The per-pixel alpha blend of `apply_optimized_blur` (lines 237-239):
`(orig * (1 - m/255) + blurred * m/255)` truncated back to an 8-bit value.
Exact rational arithmetic; the float32 computation is exact at the mask
values 0 and 255 that the verified claims depend on. -/
def blendPixel (orig blur m : ℕ) : ℕ :=
  (orig * (255 - m) + blur * m) / 255

/-- The function `apply_multi_stage_blur` (lines 268-292): heavy Gaussian blur, motion
blur, then pixelation with block size 8. -/
def apply_multi_stage_blur (env : Env) (img : Frame) : Frame :=
  let blur_heavy := env.gaussianBlur img 45 15
  let blur_motion := env.motionBlur15 blur_heavy
  let small := env.resizeLinear blur_motion (img.width / 8) (img.height / 8)
  env.resizeNearest small img.width img.height

/-- The function `apply_optimized_blur` (lines 208-241): build the combined smooth mask,
blur the whole image with the multi-stage transform, and alpha-blend the two
per pixel. -/
def apply_optimized_blur (env : Env) (img : Frame) (rs : List Region) : Frame :=
  { height := img.height
    width := img.width
    pix := fun y x =>
      blendPixel (img.pix y x) ((apply_multi_stage_blur env img).pix y x)
        (combinedMask img.height img.width rs y x) }

/-- Pixels outside every padded region keep a zero combined mask. -/
theorem foldl_mask_zero (height width y x : ℕ) :
    ∀ (rs : List Region) (m : ℕ → ℕ → ℕ),
      (∀ r ∈ rs, ¬ inPaddedBox height width r y x) → m y x = 0 →
      (rs.foldl (maskAddRegion height width) m) y x = 0
  | [], _, _, hm => hm
  | r :: rs, m, hout, hm => by
    rw [List.foldl_cons]
    refine foldl_mask_zero height width y x rs _
      (fun r' hr' => hout r' (List.mem_cons_of_mem _ hr')) ?_
    rw [maskAddRegion, if_neg (hout r (List.mem_cons_self r rs))]
    exact hm

/-- C5: compositing leaves the frame dimensions unchanged, and every pixel
strictly outside every padded redaction region is bit-identical between
input and output. -/
theorem apply_optimized_blur_locality (env : Env) (img : Frame)
    (rs : List Region) (y x : ℕ)
    (hout : ∀ r ∈ rs, ¬ inPaddedBox img.height img.width r y x) :
    (apply_optimized_blur env img rs).height = img.height ∧
    (apply_optimized_blur env img rs).width = img.width ∧
    (apply_optimized_blur env img rs).pix y x = img.pix y x := by
  refine ⟨rfl, rfl, ?_⟩
  show blendPixel _ _ _ = _
  rw [combinedMask, foldl_mask_zero img.height img.width y x rs _ hout rfl, blendPixel]
  simp

/-- Witness for `apply_optimized_blur_locality`: a 20×20 frame, one region,
and the pixel (15,15) outside its padded box. -/
theorem apply_optimized_blur_locality_witness :
    ¬ inPaddedBox 20 20 ⟨5, 5, 8, 8, "BUTTOCKS_EXPOSED", 1⟩ 15 15 ∧
    (apply_optimized_blur
        ⟨fun f _ _ => f, fun f _ _ => f, fun f _ _ => f, fun f => f,
          fun _ _ _ => [], modelLabels, none⟩
        ⟨20, 20, fun y x => y + x⟩
        [⟨5, 5, 8, 8, "BUTTOCKS_EXPOSED", 1⟩]).pix 15 15 =
      (⟨20, 20, fun y x => y + x⟩ : Frame).pix 15 15 :=
  ⟨by decide,
   (apply_optimized_blur_locality
     ⟨fun f _ _ => f, fun f _ _ => f, fun f _ _ => f, fun f => f,
       fun _ _ _ => [], modelLabels, none⟩
     ⟨20, 20, fun y x => y + x⟩
     [⟨5, 5, 8, 8, "BUTTOCKS_EXPOSED", 1⟩] 15 15
     (by intro r hr; rw [List.mem_singleton] at hr; subst hr; decide)).2.2⟩

/-- Rows and columns within `k` of the frame edge are the only cells the
first `k` mask-loop iterations touch. -/
theorem smoothMaskAux_untouched (w h p : ℕ) :
    ∀ (k y x : ℕ),
      (∀ j, j < k → y ≠ j) → (∀ j, j < k → y ≠ h - 1 - j) →
      (∀ j, j < k → x ≠ j) → (∀ j, j < k → x ≠ w - 1 - j) →
      smoothMaskAux w h p k y x = 255
  | 0, _, _, _, _, _, _ => rfl
  | k + 1, y, x, hy1, hy2, hx1, hx2 => by
    have hk : k < k + 1 := Nat.lt_succ_self k
    have hA : ¬(k < h ∧ (y = k ∨ y = h - 1 - k)) := by
      rintro ⟨-, hy | hy⟩
      · exact hy1 k hk hy
      · exact hy2 k hk hy
    have hB : ¬(k < w ∧ x = k) := fun hc => hx1 k hk hc.2
    have hC : ¬(k < w ∧ x = w - 1 - k) := fun hc => hx2 k hk hc.2
    show smoothStep w h p k (smoothMaskAux w h p k) y x = 255
    rw [smoothStep]
    simp only [if_neg hA, if_neg hB, if_neg hC]
    exact smoothMaskAux_untouched w h p k y x
      (fun j hj => hy1 j (hj.trans hk)) (fun j hj => hy2 j (hj.trans hk))
      (fun j hj => hx1 j (hj.trans hk)) (fun j hj => hx2 j (hj.trans hk))

/-- A top-edge row `i < padding` away from the corner columns is written with
`smoothIntensity` at iteration `i` and never touched afterwards. -/
theorem smoothMaskAux_row_value (w h p i x : ℕ) (hih : i < h)
    (hrow : ∀ j, j < p → i ≠ h - 1 - j)
    (hx1 : ∀ j, j < p → x ≠ j) (hx2 : ∀ j, j < p → x ≠ w - 1 - j) :
    ∀ k, i < k → k ≤ p → smoothMaskAux w h p k i x = smoothIntensity p i := by
  intro k
  induction k with
  | zero => intro h1 _; exact absurd h1 (Nat.not_lt_zero i)
  | succ k ih =>
    intro hik hkp
    by_cases hik' : i < k
    · have hA : ¬(k < h ∧ (i = k ∨ i = h - 1 - k)) := by
        rintro ⟨-, hy | hy⟩
        · omega
        · exact hrow k (by omega) hy
      have hB : ¬(k < w ∧ x = k) := fun hc => hx1 k (by omega) hc.2
      have hC : ¬(k < w ∧ x = w - 1 - k) := fun hc => hx2 k (by omega) hc.2
      show smoothStep w h p k (smoothMaskAux w h p k) i x = smoothIntensity p i
      rw [smoothStep]
      simp only [if_neg hA, if_neg hB, if_neg hC]
      exact ih hik' (by omega)
    · have hik0 : i = k := by omega
      subst hik0
      have hB : ¬(i < w ∧ x = i) := fun hc => hx1 i (by omega) hc.2
      have hC : ¬(i < w ∧ x = w - 1 - i) := fun hc => hx2 i (by omega) hc.2
      show smoothStep w h p i (smoothMaskAux w h p i) i x = smoothIntensity p i
      rw [smoothStep]
      rw [if_neg hC, if_neg hB,
        if_pos (show i < h ∧ (i = i ∨ i = h - 1 - i) from ⟨hih, Or.inl rfl⟩)]

/-- C8 (amended): the edge mask is at full opacity (255) everywhere in the
interior of the padded box; for the source's `padding = 5`, the border ramps
linearly — the `i`-th ring from the outside (away from the corner bands) has
weight `255*(i+1)/5 = 51*(i+1)` — so the outermost ring's weight is 51:
strictly below full opacity, but strictly greater than zero, not zero. -/
theorem create_smooth_mask_profile :
    (∀ w h p y x, p ≤ y → y + p < h → p ≤ x → x + p < w →
      create_smooth_mask w h p y x = 255) ∧
    (∀ w h i x, 10 ≤ h → i < 5 → 5 ≤ x → x + 5 < w →
      create_smooth_mask w h 5 i x = 51 * (i + 1)) ∧
    (∀ w h x, 10 ≤ h → 5 ≤ x → x + 5 < w →
      0 < create_smooth_mask w h 5 0 x ∧ create_smooth_mask w h 5 0 x < 255) := by
  have hramp : ∀ w h i x, 10 ≤ h → i < 5 → 5 ≤ x → x + 5 < w →
      create_smooth_mask w h 5 i x = 51 * (i + 1) := by
    intro w h i x hh hi hx hxw
    rw [create_smooth_mask,
      smoothMaskAux_row_value w h 5 i x (by omega) (fun j hj => by omega)
        (fun j hj => by omega) (fun j hj => by omega) 5 hi le_rfl,
      smoothIntensity, show 255 * (i + 1) = 51 * (i + 1) * 5 by ring]
    exact Nat.mul_div_cancel _ (by norm_num)
  refine ⟨?_, hramp, ?_⟩
  · intro w h p y x hy1 hy2 hx1 hx2
    exact smoothMaskAux_untouched w h p p y x
      (fun j hj => by omega) (fun j hj => by omega)
      (fun j hj => by omega) (fun j hj => by omega)
  · intro w h x hh hx hxw
    rw [hramp w h 0 x hh (by norm_num) hx hxw]
    norm_num

/-- Witness for `create_smooth_mask_profile` on a 20×20 mask with padding 5. -/
theorem create_smooth_mask_profile_witness :
    ((5 : ℕ) ≤ 10 ∧ 10 + 5 < 20 ∧ (10 : ℕ) ≤ 20) ∧
    create_smooth_mask 20 20 5 10 10 = 255 ∧
    create_smooth_mask 20 20 5 2 10 = 51 * (2 + 1) ∧
    (0 < create_smooth_mask 20 20 5 0 10 ∧ create_smooth_mask 20 20 5 0 10 < 255) :=
  ⟨by decide,
   create_smooth_mask_profile.1 20 20 5 10 10 (by decide) (by decide) (by decide) (by decide),
   create_smooth_mask_profile.2.1 20 20 2 10 (by decide) (by decide) (by decide) (by decide),
   create_smooth_mask_profile.2.2 20 20 10 (by decide) (by decide) (by decide)⟩

/-- C8 counterexample: on a 20×20 padded box with the source's `padding = 5`,
the outermost ring of the mask (row 0, here at column 10) has weight 51 — not
the zero opacity the claim asserts. -/
theorem create_smooth_mask_outer_ring_nonzero :
    create_smooth_mask 20 20 5 0 10 = 51 ∧ create_smooth_mask 20 20 5 0 10 ≠ 0 := by
  decide

/-! ### The `UltraFastNSFWProcessor.process_frame` orchestrator of `flask_api.py`

Python ndarrays are mutable buffers passed by reference, so frames live in a
heap `Addr → Frame`; `process_frame` receives an address, may write blurred
pixels back through it, and the cache stores addresses, mirroring the
source's reference semantics.  A call is modelled with a single timestamp
`now` standing for the `time.time()` readings of that call. -/

/-- A reference to a frame buffer. -/
abbrev Addr := ℕ

/-- One entry of `self.frame_cache` (flask_api.py lines 146-150):
`{'result': frame, 'detections': [...], 'timestamp': t}`.  `result` is a
reference, exactly as the source stores the ndarray object. -/
structure CacheEntry where
  result : Addr
  detections : List Detection
  timestamp : ℚ

/-- The processor state visible to `process_frame`: the frame heap, the
frame cache, and the number of detector invocations (the call count the
spec asks to observe). -/
structure PState where
  heap : Addr → Frame
  cache : String → Option CacheEntry
  detCalls : ℕ

/-- The processor configuration attributes read by `process_frame`. -/
structure Config where
  resize_factor : ℚ
  confidence_threshold : ℚ
  cache_ttl : ℚ
  max_detections : ℕ
  nsfw_classes : List String

/-- Region-to-detection dict conversion (flask_api.py lines 131-138). -/
def regionToDetection (r : Region) : Detection :=
  ⟨r.className, r.conf, (r.x1, r.y1, r.x2, r.y2)⟩

/-- Python truthiness of the `frame_id` argument: `None` and the empty
string are falsy (`if frame_id and ...`, lines 94 and 145). -/
def fidTruthy : Option String → Option String
  | none => none
  | some s => if s = "" then none else some s

/-- The cache check of lines 94-99: a truthy `frame_id` present in the cache
whose age is strictly below `cache_ttl` yields the stored pair; a stale or
absent entry is a miss (the stale entry is left in place). -/
def cacheLookup (cache : String → Option CacheEntry) (frame_id : Option String)
    (now ttl : ℚ) : Option (Addr × List Detection) :=
  match fidTruthy frame_id with
  | none => none
  | some s =>
    match cache s with
    | none => none
    | some e => if now - e.timestamp < ttl then some (e.result, e.detections) else none

/-- The method `_clean_cache` (lines 248-256): drop entries whose age strictly exceeds
`cache_ttl`. -/
def cleanCache (cache : String → Option CacheEntry) (now ttl : ℚ) :
    String → Option CacheEntry :=
  fun k =>
    match cache k with
    | none => none
    | some e => if ttl < now - e.timestamp then none else some e

/-- Line 104: the per-call confidence threshold, defaulting to the
processor's. -/
def effConf (cfg : Config) (confidence_threshold : Option ℚ) : ℚ :=
  confidence_threshold.getD cfg.confidence_threshold

/-- Line 107: `resize_factor = 0.3 if fast_mode else self.resize_factor`
(`fast_mode=None` is falsy). -/
def effResize (cfg : Config) (fast_mode : Option Bool) : ℚ :=
  if fast_mode.getD false then 3/10 else cfg.resize_factor

/-- Lines 110-116: downscale before inference when the factor is not 1,
with `int(...)`-truncated target dimensions. -/
def resizedFrame (env : Env) (resize_factor : ℚ) (frame : Frame) : Frame :=
  if resize_factor ≠ 1 then
    env.resizeLinear frame (pyInt ((frame.width : ℚ) * resize_factor)).toNat
      (pyInt ((frame.height : ℚ) * resize_factor)).toNat
  else frame

/-- Lines 101-128 as one chain: resize, run the detector with the effective
confidence threshold and `max_det`, and extract the blur regions against the
original frame's shape. -/
def pipelineRegions (cfg : Config) (env : Env) (frame : Frame)
    (confidence_threshold : Option ℚ) (fast_mode : Option Bool) : List Region :=
  extractBlurRegions env.labels cfg.nsfw_classes frame.height frame.width
    (effResize cfg fast_mode)
    (env.detect (resizedFrame env (effResize cfg fast_mode) frame)
      (effConf cfg confidence_threshold) cfg.max_detections)

/-- The slice `frame[y1:y2, x1:x2]` — the region of interest view. -/
def cropFrame (f : Frame) (x1 y1 x2 y2 : ℤ) : Frame :=
  ⟨(y2 - y1).toNat, (x2 - x1).toNat, fun y x => f.pix (y + y1.toNat) (x + x1.toNat)⟩

/-- The per-region blur of `_apply_ultra_fast_blur` (lines 226-241):
adaptive odd Gaussian kernel, then pixelation when the adaptive block size
exceeds 1.  The Gaussian and the two resizes are the external primitives. -/
def ultraBlurROI (env : Env) (roi : Frame) : Frame :=
  let h := roi.height
  let w := roi.width
  let k0 := min 15 (max 5 (min (w / 4) (h / 4)))
  let kernel_size := if k0 % 2 = 0 then k0 + 1 else k0
  let blurred := env.gaussianBlur roi kernel_size 0
  let pixel_size := max 2 (min (w / 12) (h / 12))
  if 1 < pixel_size then
    env.resizeNearest (env.resizeLinear blurred (w / pixel_size) (h / pixel_size)) w h
  else blurred

/-- One iteration of the `_apply_ultra_fast_blur` loop (lines 220-244):
for a non-degenerate region with a non-empty ROI, write the blurred ROI back
into the frame in place. -/
def writeRegionBlur (env : Env) (f : Frame) (r : Region) : Frame :=
  if r.x1 < r.x2 ∧ r.y1 < r.y2 then
    let roi := cropFrame f r.x1 r.y1 r.x2 r.y2
    if 0 < roi.height * roi.width * 3 then
      { f with pix := fun y x =>
          if r.y1.toNat ≤ y ∧ y < r.y2.toNat ∧ r.x1.toNat ≤ x ∧ x < r.x2.toNat then
            (ultraBlurROI env roi).pix (y - r.y1.toNat) (x - r.x1.toNat)
          else f.pix y x }
    else f
  else f

/-- The method `_apply_ultra_fast_blur` (lines 217-246). -/
def applyUltraFastBlur (env : Env) (f : Frame) (rs : List Region) : Frame :=
  rs.foldl (writeRegionBlur env) f

/-- The cache store of lines 144-153: write the entry for a truthy
`frame_id`, then sweep expired entries; `failAt = storeStep` raises here. -/
def storePhase (cfg : Config) (env : Env) (st : PState) (a : Addr)
    (frame_id : Option String) (detections : List Detection) (now : ℚ) :
    Except PState ((Addr × List Detection) × PState) :=
  match fidTruthy frame_id with
  | none => Except.ok ((a, detections), st)
  | some s =>
    if env.failAt = some FailPoint.storeStep then Except.error st
    else
      Except.ok ((a, detections),
        { st with cache := (cleanCache
            (fun k => if k = s then some ⟨a, detections, now⟩ else st.cache k)
            now cfg.cache_ttl) })

/-- The body of `process_frame`'s `try:` block (lines 92-163), with `Except`
carrying the state as it stands when an injected exception is raised. -/
def processBody (cfg : Config) (env : Env) (st : PState) (a : Addr)
    (frame_id : Option String) (confidence_threshold : Option ℚ)
    (fast_mode : Option Bool) (now : ℚ) :
    Except PState ((Addr × List Detection) × PState) :=
  match cacheLookup st.cache frame_id now cfg.cache_ttl with
  | some hit => Except.ok ((hit.1, hit.2), st)
  | none =>
    let frame := st.heap a
    let resize_factor := effResize cfg fast_mode
    if resize_factor ≠ 1 ∧ env.failAt = some FailPoint.resizeStep then Except.error st
    else if env.failAt = some FailPoint.inferStep then Except.error st
    else
      let st1 : PState := { st with detCalls := st.detCalls + 1 }
      if env.failAt = some FailPoint.extractStep then Except.error st1
      else
        let blur_regions := pipelineRegions cfg env frame confidence_threshold fast_mode
        let detections := blur_regions.map regionToDetection
        if blur_regions = [] then
          storePhase cfg env st1 a frame_id detections now
        else
          match env.failAt with
          | some (FailPoint.blurStep k) =>
            Except.error { st1 with heap := (fun a2 =>
              if a2 = a then applyUltraFastBlur env frame (blur_regions.take k)
              else st1.heap a2) }
          | _ =>
            storePhase cfg env
              { st1 with heap := (fun a2 =>
                  if a2 = a then applyUltraFastBlur env frame blur_regions
                  else st1.heap a2) }
              a frame_id detections now

/-- The method `process_frame` (lines 88-167): run the body and catch any exception,
returning the frame reference held by the local `frame` variable and an
empty detection list (line 167). -/
def processFrame (cfg : Config) (env : Env) (st : PState) (a : Addr)
    (frame_id : Option String) (confidence_threshold : Option ℚ)
    (fast_mode : Option Bool) (now : ℚ) : (Addr × List Detection) × PState :=
  match processBody cfg env st a frame_id confidence_threshold fast_mode now with
  | Except.ok r => r
  | Except.error stErr => ((a, []), stErr)

/-- On a cache hit, `process_frame` returns the stored pair and leaves the
state untouched. -/
theorem processFrame_hit (cfg : Config) (env : Env) (st : PState) (a : Addr)
    (fid : Option String) (ct : Option ℚ) (fm : Option Bool) (now : ℚ)
    (p : Addr × List Detection)
    (hhit : cacheLookup st.cache fid now cfg.cache_ttl = some p) :
    processFrame cfg env st a fid ct fm now = ((p.1, p.2), st) := by
  simp [processFrame, processBody, hhit]

/-- On a cache miss without failure injection, the returned pair is the
frame's own address with the detections of the qualifying regions. -/
theorem processFrame_miss_fst (cfg : Config) (env : Env) (st : PState) (a : Addr)
    (fid : Option String) (ct : Option ℚ) (fm : Option Bool) (now : ℚ)
    (hmiss : cacheLookup st.cache fid now cfg.cache_ttl = none)
    (henv : env.failAt = none) :
    (processFrame cfg env st a fid ct fm now).1 =
      (a, (pipelineRegions cfg env (st.heap a) ct fm).map regionToDetection) := by
  by_cases hreg : pipelineRegions cfg env (st.heap a) ct fm = [] <;>
    cases hft : fidTruthy fid <;>
      simp [processFrame, processBody, storePhase, hmiss, henv, hreg, hft]

/-- On a cache miss without failure injection, the detector is invoked
exactly once. -/
theorem processFrame_miss_detCalls (cfg : Config) (env : Env) (st : PState)
    (a : Addr) (fid : Option String) (ct : Option ℚ) (fm : Option Bool) (now : ℚ)
    (hmiss : cacheLookup st.cache fid now cfg.cache_ttl = none)
    (henv : env.failAt = none) :
    (processFrame cfg env st a fid ct fm now).2.detCalls = st.detCalls + 1 := by
  by_cases hreg : pipelineRegions cfg env (st.heap a) ct fm = [] <;>
    cases hft : fidTruthy fid <;>
      simp [processFrame, processBody, storePhase, hmiss, henv, hreg, hft]

/-- With no qualifying region, no pixel of any buffer is written. -/
theorem processFrame_miss_heap_nil (cfg : Config) (env : Env) (st : PState)
    (a : Addr) (fid : Option String) (ct : Option ℚ) (fm : Option Bool) (now : ℚ)
    (hmiss : cacheLookup st.cache fid now cfg.cache_ttl = none)
    (henv : env.failAt = none)
    (hreg : pipelineRegions cfg env (st.heap a) ct fm = []) :
    (processFrame cfg env st a fid ct fm now).2.heap = st.heap := by
  cases hft : fidTruthy fid <;>
    simp [processFrame, processBody, storePhase, hmiss, henv, hreg, hft]

/-- With at least one qualifying region, the blur is written in place into
the caller's buffer and every other buffer is untouched. -/
theorem processFrame_miss_heap_blur (cfg : Config) (env : Env) (st : PState)
    (a : Addr) (fid : Option String) (ct : Option ℚ) (fm : Option Bool) (now : ℚ)
    (hmiss : cacheLookup st.cache fid now cfg.cache_ttl = none)
    (henv : env.failAt = none)
    (hreg : pipelineRegions cfg env (st.heap a) ct fm ≠ []) :
    (processFrame cfg env st a fid ct fm now).2.heap a =
      applyUltraFastBlur env (st.heap a) (pipelineRegions cfg env (st.heap a) ct fm) ∧
    ∀ a2, a2 ≠ a → (processFrame cfg env st a fid ct fm now).2.heap a2 = st.heap a2 := by
  constructor
  · cases hft : fidTruthy fid <;>
      simp [processFrame, processBody, storePhase, hmiss, henv, hreg, hft]
  · intro a2 ha2
    cases hft : fidTruthy fid <;>
      simp [processFrame, processBody, storePhase, hmiss, henv, hreg, hft, ha2]

/-- With a truthy `frame_id` and a non-negative ttl, the store phase leaves
the returned pair in the cache under that id, stamped with the call time. -/
theorem processFrame_miss_cache_store (cfg : Config) (env : Env) (st : PState)
    (a : Addr) (fid : Option String) (ct : Option ℚ) (fm : Option Bool) (now : ℚ)
    (s : String)
    (hmiss : cacheLookup st.cache fid now cfg.cache_ttl = none)
    (henv : env.failAt = none)
    (hft : fidTruthy fid = some s)
    (httl : 0 ≤ cfg.cache_ttl) :
    (processFrame cfg env st a fid ct fm now).2.cache s =
      some ⟨a, (pipelineRegions cfg env (st.heap a) ct fm).map regionToDetection, now⟩ := by
  have hlt : ¬(cfg.cache_ttl < 0) := not_lt.mpr httl
  by_cases hreg : pipelineRegions cfg env (st.heap a) ct fm = [] <;>
    simp [processFrame, processBody, storePhase, hmiss, henv, hreg, hft,
      cleanCache, sub_self, hlt]

/-- C1 (amended): any exception raised inside per-frame processing is caught:
`process_frame` returns the caller's frame reference (never a copy) with an
empty detection list and does not propagate; for an exception at the resize,
inference, or region-extraction step the buffer is still unmodified, while an
exception at or after the blur write-back (for example at cache store) returns
the same buffer with the blur already applied in place. -/
theorem process_frame_error_containment (cfg : Config) (env : Env) (st : PState)
    (a : Addr) (fid : Option String) (ct : Option ℚ) (fm : Option Bool) (now : ℚ)
    (stErr : PState)
    (herr : processBody cfg env st a fid ct fm now = Except.error stErr) :
    processFrame cfg env st a fid ct fm now = ((a, []), stErr) ∧
    ((env.failAt = some FailPoint.resizeStep ∨ env.failAt = some FailPoint.inferStep ∨
      env.failAt = some FailPoint.extractStep) → stErr.heap = st.heap) := by
  constructor
  · simp [processFrame, herr]
  · rintro (hfp | hfp | hfp) <;>
    · simp only [processBody, storePhase] at herr
      repeat' split at herr
      all_goals first
        | (injection herr with h; subst h; rfl)
        | simp_all

/-! ### Concrete fixtures for witnesses and counterexamples -/

/-- A 4×4 all-zero test frame. -/
def frame0 : Frame := ⟨4, 4, fun _ _ => 0⟩

/-- A heap whose every address holds the test frame. -/
def heap0 : Addr → Frame := fun _ => frame0

/-- Processor attributes used by the fixtures: no pre-inference resize,
threshold 0.5, ttl 0.1s — the source's defaults except `resize_factor`. -/
def testCfg : Config := ⟨1, 1/2, 1/10, 20, nsfwClasses⟩

/-- A fixture environment: a detector that always reports one
`BUTTOCKS_EXPOSED` box `(0,0,2,2)` at confidence 0.9, and pixel primitives
whose nearest-neighbour upscale paints the constant value 7 (standing for an
arbitrary externally blurred result). -/
def testEnvWith (fp : Option FailPoint) : Env :=
  ⟨fun f w h => ⟨h, w, f.pix⟩, fun _ w h => ⟨h, w, fun _ _ => 7⟩,
   fun f _ _ => f, fun f => f, fun _ _ _ => [⟨0, 0, 2, 2, 9/10, 2⟩],
   modelLabels, fp⟩

/-- The fixture state: empty cache, no detector calls yet. -/
def testState : PState := ⟨heap0, fun _ => none, 0⟩

/-- On the fixture, the pipeline finds exactly one qualifying region. -/
theorem testRegions (fp : Option FailPoint) :
    pipelineRegions testCfg (testEnvWith fp) frame0 none none =
      [⟨0, 0, 2, 2, "BUTTOCKS_EXPOSED", 9/10⟩] := by
  have hmem : "BUTTOCKS_EXPOSED" ∈ nsfwClasses := by decide
  norm_num [pipelineRegions, extractBlurRegions, effResize, effConf, resizedFrame,
    testCfg, testEnvWith, frame0, rectifyCoords, clampBox, scaleCoord,
    modelLabels, hmem, pyInt_eq_floor, List.filterMap_cons, List.filterMap_nil]

/-- The fixture blur writes the value 7 at pixel (0,0) of the frame. -/
theorem testBlurPixel (fp : Option FailPoint) :
    (applyUltraFastBlur (testEnvWith fp) frame0
      [⟨0, 0, 2, 2, "BUTTOCKS_EXPOSED", 9/10⟩]).pix 0 0 = 7 := by
  norm_num [applyUltraFastBlur, writeRegionBlur, cropFrame, ultraBlurROI,
    testEnvWith, frame0]

/-- C1 counterexample: with one qualifying detection and an exception raised
at the cache store (after the blur write-back), `process_frame` returns the
same buffer with an empty detection list — but the buffer is no longer the
original unmodified frame: pixel (0,0) was 0 and is now 7. -/
theorem process_frame_store_error_modified :
    (processFrame testCfg (testEnvWith (some FailPoint.storeStep)) testState 0
        (some "f1") none none 0).1 = (0, []) ∧
    ((processFrame testCfg (testEnvWith (some FailPoint.storeStep)) testState 0
        (some "f1") none none 0).2.heap 0).pix 0 0 = 7 ∧
    (testState.heap 0).pix 0 0 = 0 := by
  have hne : "f1" ≠ "" := by decide
  have hreg := testRegions (some FailPoint.storeStep)
  have hfa : (testEnvWith (some FailPoint.storeStep)).failAt =
      some FailPoint.storeStep := rfl
  refine ⟨?_, ?_, rfl⟩ <;>
    simp [processFrame, processBody, storePhase, cacheLookup, fidTruthy, hne,
      testState, heap0, hreg, hfa, testBlurPixel]

/-- Witness for `process_frame_error_containment`: an exception injected at
the region-extraction step is caught; the call returns the input reference
with no detections and the heap is untouched. -/
theorem process_frame_error_containment_witness :
    processBody testCfg (testEnvWith (some FailPoint.extractStep)) testState 0
        none none none 0 = Except.error ⟨heap0, fun _ => none, 1⟩ ∧
    processFrame testCfg (testEnvWith (some FailPoint.extractStep)) testState 0
        none none none 0 = ((0, []), ⟨heap0, fun _ => none, 1⟩) ∧
    (⟨heap0, fun _ => none, 1⟩ : PState).heap = testState.heap := by
  have herr : processBody testCfg (testEnvWith (some FailPoint.extractStep)) testState 0
      none none none 0 = Except.error ⟨heap0, fun _ => none, 1⟩ := by
    simp [processBody, cacheLookup, fidTruthy, testState, testEnvWith, testCfg, effResize]
  exact ⟨herr,
    (process_frame_error_containment testCfg (testEnvWith (some FailPoint.extractStep))
      testState 0 none none none 0 ⟨heap0, fun _ => none, 1⟩ herr).1,
    (process_frame_error_containment testCfg (testEnvWith (some FailPoint.extractStep))
      testState 0 none none none 0 ⟨heap0, fun _ => none, 1⟩ herr).2
      (Or.inr (Or.inr rfl))⟩

/-- C4: a cache lookup returns the stored pair exactly when the entry's age
is strictly below the ttl; a fresh hit returns the stored pair with the
state (hence the detector call count) unchanged; a stale entry leads to a
new detector invocation; and a miss ends by storing the returned pair under
the frame id, stamped with the call time. -/
theorem process_frame_cache_ttl (cfg : Config) (env : Env) (st : PState)
    (a : Addr) (s : String) (ct : Option ℚ) (fm : Option Bool) (now : ℚ) :
    (∀ e : CacheEntry, s ≠ "" → st.cache s = some e →
      (cacheLookup st.cache (some s) now cfg.cache_ttl =
          some (e.result, e.detections) ↔ now - e.timestamp < cfg.cache_ttl)) ∧
    (∀ e : CacheEntry, s ≠ "" → st.cache s = some e →
      now - e.timestamp < cfg.cache_ttl →
      processFrame cfg env st a (some s) ct fm now = ((e.result, e.detections), st)) ∧
    (∀ e : CacheEntry, s ≠ "" → st.cache s = some e →
      cfg.cache_ttl ≤ now - e.timestamp → env.failAt = none →
      (processFrame cfg env st a (some s) ct fm now).2.detCalls = st.detCalls + 1) ∧
    (cacheLookup st.cache (some s) now cfg.cache_ttl = none → s ≠ "" →
      env.failAt = none → 0 ≤ cfg.cache_ttl →
      (processFrame cfg env st a (some s) ct fm now).2.cache s =
        some ⟨(processFrame cfg env st a (some s) ct fm now).1.1,
          (processFrame cfg env st a (some s) ct fm now).1.2, now⟩) := by
  refine ⟨?_, ?_, ?_, ?_⟩
  · intro e hs hce
    simp only [cacheLookup, fidTruthy, if_neg hs, hce]
    by_cases hf : now - e.timestamp < cfg.cache_ttl <;> simp [hf]
  · intro e hs hce hf
    have hhit : cacheLookup st.cache (some s) now cfg.cache_ttl =
        some (e.result, e.detections) := by
      simp [cacheLookup, fidTruthy, hs, hce, hf]
    simpa using processFrame_hit cfg env st a (some s) ct fm now
      (e.result, e.detections) hhit
  · intro e hs hce hstale henv
    have hmiss : cacheLookup st.cache (some s) now cfg.cache_ttl = none := by
      simp [cacheLookup, fidTruthy, hs, hce, not_lt.mpr hstale]
    exact processFrame_miss_detCalls cfg env st a (some s) ct fm now hmiss henv
  · intro hmiss hs henv httl
    have hft : fidTruthy (some s) = some s := by simp [fidTruthy, hs]
    have hst := processFrame_miss_cache_store cfg env st a (some s) ct fm now s
      hmiss henv hft httl
    have hfst := processFrame_miss_fst cfg env st a (some s) ct fm now hmiss henv
    simp [hst, hfst]

/-- C6: with zero qualifying detections, `process_frame` returns the caller's
frame reference with an empty detection list, and no buffer is modified. -/
theorem process_frame_no_qualifying_identity (cfg : Config) (env : Env)
    (st : PState) (a : Addr) (fid : Option String) (ct : Option ℚ)
    (fm : Option Bool) (now : ℚ)
    (hmiss : cacheLookup st.cache fid now cfg.cache_ttl = none)
    (henv : env.failAt = none)
    (hreg : pipelineRegions cfg env (st.heap a) ct fm = []) :
    (processFrame cfg env st a fid ct fm now).1.1 = a ∧
    (processFrame cfg env st a fid ct fm now).1.2 = [] ∧
    (processFrame cfg env st a fid ct fm now).2.heap = st.heap := by
  have h1 := processFrame_miss_fst cfg env st a fid ct fm now hmiss henv
  exact ⟨by simp [h1], by simp [h1, hreg],
    processFrame_miss_heap_nil cfg env st a fid ct fm now hmiss henv hreg⟩

/-- A fixture environment whose detector never reports anything. -/
def noDetEnv : Env :=
  ⟨fun f w h => ⟨h, w, f.pix⟩, fun _ w h => ⟨h, w, fun _ _ => 7⟩,
   fun f _ _ => f, fun f => f, fun _ _ _ => [], modelLabels, none⟩

/-- Witness for `process_frame_no_qualifying_identity` on the fixture with an
empty detector result. -/
theorem process_frame_no_qualifying_identity_witness :
    (cacheLookup testState.cache (some "f1") 0 testCfg.cache_ttl = none ∧
     noDetEnv.failAt = none ∧
     pipelineRegions testCfg noDetEnv (testState.heap 0) none none = []) ∧
    (processFrame testCfg noDetEnv testState 0 (some "f1") none none 0).1.1 = 0 ∧
    (processFrame testCfg noDetEnv testState 0 (some "f1") none none 0).1.2 = [] ∧
    (processFrame testCfg noDetEnv testState 0 (some "f1") none none 0).2.heap =
      testState.heap :=
  ⟨⟨rfl, rfl, rfl⟩,
   process_frame_no_qualifying_identity testCfg noDetEnv testState 0 (some "f1")
     none none 0 rfl rfl rfl⟩

/-- A fixture state holding a fresh cache entry for `"f1"`: result buffer 5,
no detections, stored at time 0. -/
def cachedState : PState :=
  ⟨heap0, fun k => if k = "f1" then some ⟨5, [], 0⟩ else none, 0⟩

/-- Witness for `process_frame_cache_ttl`: on the fixture entry of age 0 and
ttl 0.1, the lookup characterization holds; a call at time 0 returns the
stored pair with the state unchanged; a call at time 1 (stale) invokes the
detector; and a call on an empty cache stores its own returned pair. -/
theorem process_frame_cache_ttl_witness :
    (("f1" ≠ "") ∧ cachedState.cache "f1" = some ⟨5, [], 0⟩ ∧
      (0 : ℚ) - 0 < testCfg.cache_ttl ∧ testCfg.cache_ttl ≤ (1 : ℚ) - 0 ∧
      (0 : ℚ) ≤ testCfg.cache_ttl ∧
      cacheLookup testState.cache (some "f1") 0 testCfg.cache_ttl = none) ∧
    (cacheLookup cachedState.cache (some "f1") 0 testCfg.cache_ttl =
        some (5, []) ↔ (0 : ℚ) - 0 < testCfg.cache_ttl) ∧
    processFrame testCfg (testEnvWith none) cachedState 0 (some "f1") none none 0 =
      ((5, []), cachedState) ∧
    (processFrame testCfg (testEnvWith none) cachedState 0 (some "f1") none none 1).2.detCalls =
      cachedState.detCalls + 1 ∧
    (processFrame testCfg (testEnvWith none) testState 0 (some "f1") none none 0).2.cache "f1" =
      some ⟨(processFrame testCfg (testEnvWith none) testState 0 (some "f1") none none 0).1.1,
        (processFrame testCfg (testEnvWith none) testState 0 (some "f1") none none 0).1.2, 0⟩ :=
  ⟨⟨by decide, rfl, by norm_num [testCfg], by norm_num [testCfg], by norm_num [testCfg], rfl⟩,
   (process_frame_cache_ttl testCfg (testEnvWith none) cachedState 0 "f1" none none 0).1
     ⟨5, [], 0⟩ (by decide) rfl,
   (process_frame_cache_ttl testCfg (testEnvWith none) cachedState 0 "f1" none none 0).2.1
     ⟨5, [], 0⟩ (by decide) rfl (by norm_num [testCfg]),
   (process_frame_cache_ttl testCfg (testEnvWith none) cachedState 0 "f1" none none 1).2.2.1
     ⟨5, [], 0⟩ (by decide) rfl (by norm_num [testCfg]) rfl,
   (process_frame_cache_ttl testCfg (testEnvWith none) testState 0 "f1" none none 0).2.2.2
     rfl (by decide) rfl (by norm_num [testCfg])⟩

/-- C9: a fresh cache hit is served without reading the per-call
`confidence_threshold` and `fast_mode` arguments — the call returns the
cached pair with the state unchanged for every value of those arguments —
so a second call with the same frame id inside the ttl returns the pair the
first call computed with the first call's parameters, whatever parameters
the second call passes. -/
theorem process_frame_hit_ignores_params (cfg : Config) (env : Env)
    (st : PState) (a a2 : Addr) (fid : Option String) (s : String)
    (ct1 ct2 : Option ℚ) (fm1 fm2 : Option Bool) (t1 t2 : ℚ) :
    (∀ p, cacheLookup st.cache fid t1 cfg.cache_ttl = some p →
      processFrame cfg env st a fid ct1 fm1 t1 = ((p.1, p.2), st) ∧
      processFrame cfg env st a fid ct1 fm1 t1 =
        processFrame cfg env st a fid ct2 fm2 t1) ∧
    (cacheLookup st.cache (some s) t1 cfg.cache_ttl = none → s ≠ "" →
      env.failAt = none → 0 ≤ cfg.cache_ttl → t2 - t1 < cfg.cache_ttl →
      processFrame cfg env (processFrame cfg env st a (some s) ct1 fm1 t1).2 a2
          (some s) ct2 fm2 t2 =
        ((processFrame cfg env st a (some s) ct1 fm1 t1).1,
         (processFrame cfg env st a (some s) ct1 fm1 t1).2)) := by
  constructor
  · intro p hp
    exact ⟨processFrame_hit cfg env st a fid ct1 fm1 t1 p hp,
      by rw [processFrame_hit cfg env st a fid ct1 fm1 t1 p hp,
        processFrame_hit cfg env st a fid ct2 fm2 t1 p hp]⟩
  · intro hmiss hs henv httl hfresh
    have hft : fidTruthy (some s) = some s := by simp [fidTruthy, hs]
    have hst := processFrame_miss_cache_store cfg env st a (some s) ct1 fm1 t1 s
      hmiss henv hft httl
    have hfst := processFrame_miss_fst cfg env st a (some s) ct1 fm1 t1 hmiss henv
    have hhit2 : cacheLookup (processFrame cfg env st a (some s) ct1 fm1 t1).2.cache
        (some s) t2 cfg.cache_ttl =
        some (a, (pipelineRegions cfg env (st.heap a) ct1 fm1).map regionToDetection) := by
      simp [cacheLookup, fidTruthy, hs, hst, hfresh]
    rw [processFrame_hit cfg env _ a2 (some s) ct2 fm2 t2 _ hhit2, hfst]

/-- Witness for `process_frame_hit_ignores_params`: the fresh fixture entry
is returned for two different argument pairs, and the two-call scenario on
an empty cache returns the first call's pair at time 1/20 < ttl. -/
theorem process_frame_hit_ignores_params_witness :
    (cacheLookup cachedState.cache (some "f1") 0 testCfg.cache_ttl = some (5, []) ∧
     cacheLookup testState.cache (some "f1") 0 testCfg.cache_ttl = none ∧
     ("f1" ≠ "") ∧ (0 : ℚ) ≤ testCfg.cache_ttl ∧
     (1 : ℚ)/20 - 0 < testCfg.cache_ttl) ∧
    processFrame testCfg (testEnvWith none) cachedState 0 (some "f1") none none 0 =
      ((5, []), cachedState) ∧
    processFrame testCfg (testEnvWith none) cachedState 0 (some "f1") none none 0 =
      processFrame testCfg (testEnvWith none) cachedState 0 (some "f1")
        (some (9/10)) (some true) 0 ∧
    processFrame testCfg (testEnvWith none)
        (processFrame testCfg (testEnvWith none) testState 0 (some "f1") none none 0).2
        1 (some "f1") (some (9/10)) (some true) (1/20) =
      ((processFrame testCfg (testEnvWith none) testState 0 (some "f1") none none 0).1,
       (processFrame testCfg (testEnvWith none) testState 0 (some "f1") none none 0).2) := by
  have hhit : cacheLookup cachedState.cache (some "f1") 0 testCfg.cache_ttl =
      some (5, []) := by
    have hne : ("f1" : String) ≠ "" := by decide
    norm_num [cacheLookup, fidTruthy, cachedState, testCfg, hne]
  refine ⟨⟨hhit, rfl, by decide, by norm_num [testCfg], by norm_num [testCfg]⟩, ?_, ?_, ?_⟩
  · exact ((process_frame_hit_ignores_params testCfg (testEnvWith none) cachedState
      0 1 (some "f1") "f1" none (some (9/10)) none (some true) 0 (1/20)).1
      (5, []) hhit).1
  · exact ((process_frame_hit_ignores_params testCfg (testEnvWith none) cachedState
      0 1 (some "f1") "f1" none (some (9/10)) none (some true) 0 (1/20)).1
      (5, []) hhit).2
  · exact (process_frame_hit_ignores_params testCfg (testEnvWith none) testState
      0 1 (some "f1") "f1" none (some (9/10)) none (some true) 0 (1/20)).2
      rfl (by decide) rfl (by norm_num [testCfg]) (by norm_num [testCfg])

/-- C10: with at least one qualifying region, `process_frame` writes the
blurred pixels into the caller's buffer in place (no other buffer changes)
and returns that same buffer, and the cache entry stored under the frame id
holds a reference to that same buffer — the cached frame and the returned
frame alias each other. -/
theorem process_frame_inplace_alias (cfg : Config) (env : Env) (st : PState)
    (a : Addr) (s : String) (ct : Option ℚ) (fm : Option Bool) (now : ℚ)
    (hmiss : cacheLookup st.cache (some s) now cfg.cache_ttl = none)
    (henv : env.failAt = none) (hs : s ≠ "") (httl : 0 ≤ cfg.cache_ttl)
    (hreg : pipelineRegions cfg env (st.heap a) ct fm ≠ []) :
    (processFrame cfg env st a (some s) ct fm now).1.1 = a ∧
    (processFrame cfg env st a (some s) ct fm now).2.heap a =
      applyUltraFastBlur env (st.heap a) (pipelineRegions cfg env (st.heap a) ct fm) ∧
    (∀ a2, a2 ≠ a → (processFrame cfg env st a (some s) ct fm now).2.heap a2 =
      st.heap a2) ∧
    (processFrame cfg env st a (some s) ct fm now).2.cache s =
      some ⟨a, (processFrame cfg env st a (some s) ct fm now).1.2, now⟩ := by
  have hfst := processFrame_miss_fst cfg env st a (some s) ct fm now hmiss henv
  have hblur := processFrame_miss_heap_blur cfg env st a (some s) ct fm now
    hmiss henv hreg
  have hft : fidTruthy (some s) = some s := by simp [fidTruthy, hs]
  have hst := processFrame_miss_cache_store cfg env st a (some s) ct fm now s
    hmiss henv hft httl
  exact ⟨by simp [hfst], hblur.1, hblur.2, by simp [hst, hfst]⟩

/-- Witness for `process_frame_inplace_alias` on the fixture: the blurred
pixels land in buffer 0, buffer 1 is untouched, and the cache entry for
`"f1"` references buffer 0 — the very buffer that was returned. -/
theorem process_frame_inplace_alias_witness :
    (cacheLookup testState.cache (some "f1") 0 testCfg.cache_ttl = none ∧
     (testEnvWith none).failAt = none ∧ ("f1" ≠ "") ∧
     (0 : ℚ) ≤ testCfg.cache_ttl ∧
     pipelineRegions testCfg (testEnvWith none) (testState.heap 0) none none ≠ []) ∧
    (processFrame testCfg (testEnvWith none) testState 0 (some "f1") none none 0).1.1 = 0 ∧
    (processFrame testCfg (testEnvWith none) testState 0 (some "f1") none none 0).2.heap 0 =
      applyUltraFastBlur (testEnvWith none) (testState.heap 0)
        (pipelineRegions testCfg (testEnvWith none) (testState.heap 0) none none) ∧
    (processFrame testCfg (testEnvWith none) testState 0 (some "f1") none none 0).2.heap 1 =
      testState.heap 1 ∧
    (processFrame testCfg (testEnvWith none) testState 0 (some "f1") none none 0).2.cache "f1" =
      some ⟨0, (processFrame testCfg (testEnvWith none) testState 0 (some "f1") none none 0).1.2, 0⟩ := by
  have hreg : pipelineRegions testCfg (testEnvWith none) (testState.heap 0) none none ≠ [] := by
    show pipelineRegions testCfg (testEnvWith none) frame0 none none ≠ []
    rw [testRegions none]
    simp
  refine ⟨⟨rfl, rfl, by decide, by norm_num [testCfg], hreg⟩, ?_, ?_, ?_, ?_⟩
  · exact (process_frame_inplace_alias testCfg (testEnvWith none) testState 0 "f1"
      none none 0 rfl rfl (by decide) (by norm_num [testCfg]) hreg).1
  · exact (process_frame_inplace_alias testCfg (testEnvWith none) testState 0 "f1"
      none none 0 rfl rfl (by decide) (by norm_num [testCfg]) hreg).2.1
  · exact (process_frame_inplace_alias testCfg (testEnvWith none) testState 0 "f1"
      none none 0 rfl rfl (by decide) (by norm_num [testCfg]) hreg).2.2.1 1 (by decide)
  · exact (process_frame_inplace_alias testCfg (testEnvWith none) testState 0 "f1"
      none none 0 rfl rfl (by decide) (by norm_num [testCfg]) hreg).2.2.2
